import Mathlib

/-!
Verification development for the io-monitor repository.

The repository is an LD_PRELOAD interposition shim (src/io_monitor.c) that
intercepts C library calls, classifies them, and ships fixed-size binary
trace records to an out-of-process collector (src/mq_listener.c) over a
System V message queue or a loopback TCP socket; src/umlmagic.c is an
offline single-pass reconstructor that turns a persisted array of records
into a column/arrow layout model.

The embedding below models the C code shallowly:
- C strings are `List Char` holding the NUL-free character content;
- machine integers are `Int`/`Nat` (overflow is irrelevant at the values
  the code manipulates, except where noted);
- the process-wide mutable globals of io_monitor.c become an explicit
  `MonitorState` threaded through `record`;
- OS outcomes (socket creation, connect, writes, queue availability,
  current time, pid) become an explicit `OsEnv` argument;
- a NULL-pointer dereference (undefined behavior) is an explicit
  `RecResult.crash` value.
-/

/-- C strings modelled as their NUL-free character content. -/
abbrev CStr := List Char

/-- Characters of a string literal. -/
def chars (s : String) : CStr := s.toList

/-- The NUL character. -/
def nulChar : Char := Char.ofNat 0

/-- Model of C `strstr(hay, needle) != NULL`: does `needle` occur in `hay`. -/
def hasSub : CStr → CStr → Bool
  | [], needle => needle.isEmpty
  | c :: t, needle => needle.isPrefixOf (c :: t) || hasSub t needle

/-- Value of a C string stored in a fixed-size char array: the characters
before the first NUL. -/
def cStrVal (l : List Char) : List Char := l.takeWhile (fun c => c ≠ nulChar)

namespace IOMon

/-- STR_LEN from src/monitor_record.h. -/
def STR_LEN : Nat := 256

/-- PATH_MAX from linux/limits.h, used for monitor_record_t.s1. -/
def PATH_MAX : Nat := 4096

/-- FD_NONE sentinel from src/io_monitor.c. -/
def FD_NONE : Int := -1

/-- Domain ordinals from src/domains.h (the enum assigns consecutive values
starting at 0; the trailing comments in the header that say 17/18 for the
last two are off by one, the compiler assigns 16/17). -/
def LINKS : Nat := 0
def SOCKETS : Nat := 6
def FILE_WRITE : Nat := 11
def FILE_READ : Nat := 12
def FILE_OPEN_CLOSE : Nat := 13
def START_STOP : Nat := 16
def HTTP : Nat := 17
def END_DOMAINS : Nat := 18

/-- Operation ordinals from src/ops.h. -/
def OPEN : Nat := 0
def CLOSE : Nat := 1
def WRITE : Nat := 2
def READ : Nat := 3
def CONNECT : Nat := 43
def BIND : Nat := 46
def START : Nat := 47
def STOP : Nat := 48

/-- The process-wide mutable globals of src/io_monitor.c that the
classifier/gate and the transports touch. -/
structure MonitorState where
  facility : CStr
  domainBitFlags : Nat
  paused : Bool
  startOnOpen : Option CStr
  haveElapsedThreshold : Bool
  elapsedThreshold : ℚ
  socketFd : Int
  failedSocketConnections : Nat
  failedIpcSends : Nat
  messageQueuePath : Option CStr
deriving DecidableEq

/-- A candidate event, i.e. the argument list of `record` in
src/io_monitor.c; the two timevals are replaced by the elapsed time in
milliseconds that `record` derives from them. -/
structure Event where
  domType : Nat
  opType : Nat
  fd : Int
  s1 : Option CStr
  s2 : Option CStr
  elapsed : ℚ
  errorCode : Int
  bytesTransferred : Int
deriving DecidableEq

/-- Outcomes of the OS calls made on a single trip through `record`,
plus the wall clock and pid it samples. -/
structure OsEnv where
  timestamp : Int
  pid : Int
  socketCreateOk : Bool
  connectOk : Bool
  headerWriteOk : Bool
  bodyWriteOk : Bool
  uninitRc : Int
  queueAvailable : Bool
  queueSendOk : Bool
deriving DecidableEq

/-- The assembled struct monitor_record_t (src/monitor_record.h): the
char-array fields hold their full fixed-size contents (capacity many
characters, NUL padded). -/
structure MonitorRecordM where
  facility : List Char
  timestamp : Int
  elapsedTime : ℚ
  pid : Int
  domType : Nat
  opType : Nat
  errorCode : Int
  fd : Int
  bytesTransferred : Int
  s1 : List Char
  s2 : List Char
deriving DecidableEq

/-- The RECORD_FIELD_S macro of src/io_monitor.c applied to a fixed-size
destination field of capacity `n` that `bzero` has just zeroed:
`if (f)` skips NULL sources (leaving the field all NUL), otherwise
`strncpy` copies at most `n` characters (NUL padding when the source is
shorter) and the last byte is forced to NUL. -/
def recordFieldS : Option CStr → Nat → List Char
  | none, n => List.replicate n nulChar
  | some s, n => ((s.take n) ++ List.replicate (n - s.length) nulChar).set (n - 1) nulChar

/-- Assembly of the outgoing record in `record` (src/io_monitor.c lines
806-822): bzero followed by the RECORD_FIELD / RECORD_FIELD_S statements. -/
def assembleRecord (facility : CStr) (timestamp : Int) (elapsedTime : ℚ) (pid : Int)
    (domType opType : Nat) (errorCode fd bytesTransferred : Int)
    (s1 s2 : Option CStr) : MonitorRecordM :=
  { facility := recordFieldS (some facility) STR_LEN
    timestamp := timestamp
    elapsedTime := elapsedTime
    pid := pid
    domType := domType
    opType := opType
    errorCode := errorCode
    fd := fd
    bytesTransferred := bytesTransferred
    s1 := recordFieldS s1 PATH_MAX
    s2 := recordFieldS s2 STR_LEN }

/-- Observable transport activity of one trip through `record`:
`dispatch` marks the call of send_msg_queue / send_tcp_socket from
`record`, `socketConnectAttempt` the `connect()` call inside
send_tcp_socket, `socketSend` a completed header+payload write, and
`queueSend` a `msgsnd` call. -/
inductive Action where
  | dispatch (r : MonitorRecordM)
  | socketConnectAttempt
  | socketSend (r : MonitorRecordM)
  | queueSend (r : MonitorRecordM)
deriving DecidableEq

/-- Is this action the hand-off from the gate to a transport backend. -/
def Action.isDispatch : Action → Bool
  | .dispatch _ => true
  | _ => false

/-- Is this action a socket connection attempt. -/
def Action.isConnectAttempt : Action → Bool
  | .socketConnectAttempt => true
  | _ => false

/-- Model of send_tcp_socket (src/io_monitor.c lines 651-720): returns the
C return code, the updated globals and the emitted transport actions.
When `socket()` fails the C function returns its uninitialized local `rc`
(modelled by `env.uninitRc`) and touches nothing. On a successful
`socket()` call, socket_fd is set for the duration and reset to FD_NONE at
the end; a failed `connect()` increments failed_socket_connections. -/
def sendTcpSocket (st : MonitorState) (env : OsEnv) (r : MonitorRecordM) :
    Int × MonitorState × List Action :=
  if env.socketCreateOk then
    if env.connectOk then
      let rc : Int := if env.headerWriteOk then (if env.bodyWriteOk then 0 else -1) else -1
      let acts := if env.headerWriteOk ∧ env.bodyWriteOk
        then [Action.socketConnectAttempt, Action.socketSend r]
        else [Action.socketConnectAttempt]
      (rc, { st with socketFd := FD_NONE }, acts)
    else
      (-1, { st with socketFd := FD_NONE,
                     failedSocketConnections := st.failedSocketConnections + 1 },
        [Action.socketConnectAttempt])
  else
    (env.uninitRc, st, [])

/-- Model of send_msg_queue (src/io_monitor.c lines 622-647). The lazy
ftok/msgget key caching is folded into `env.queueAvailable` (is a queue id
obtainable); `msgsnd` with IPC_NOWAIT succeeds iff `env.queueSendOk`. -/
def sendMsgQueue (st : MonitorState) (env : OsEnv) (r : MonitorRecordM) :
    Int × MonitorState × List Action :=
  if env.queueAvailable then
    ((if env.queueSendOk then 0 else -1), st, [Action.queueSend r])
  else
    (-1, st, [])

/-- Backend selection at the bottom of `record` (src/io_monitor.c lines
823-827): the queue backend iff MESSAGE_QUEUE_PATH was present. -/
def dispatchTransport (st : MonitorState) (env : OsEnv) (r : MonitorRecordM) :
    Int × MonitorState × List Action :=
  if st.messageQueuePath ≠ none then sendMsgQueue st env r else sendTcpSocket st env r

/-- Result of one call of `record`: either normal termination with the
updated globals and emitted transport actions, or undefined behavior
(the NULL-path dereference reachable in the OPEN branch). -/
inductive RecResult where
  | crash : RecResult
  | ok : MonitorState → List Action → RecResult
deriving DecidableEq

/-- Did this `record` call hand a record to a transport backend. -/
def RecResult.deliveredB : RecResult → Bool
  | .crash => false
  | .ok _ acts => acts.any Action.isDispatch

/-- Second half of `record` (src/io_monitor.c lines 792-833): the
elapsed-time un-pause trigger, the pause gate, record assembly and
dispatch, and the failed_ipc_sends bookkeeping. -/
def recordTail (st : MonitorState) (ev : Event) (env : OsEnv) : RecResult :=
  let st1 := if st.paused ∧ st.haveElapsedThreshold ∧ st.elapsedThreshold < ev.elapsed
    then { st with paused := false } else st
  if st1.paused then .ok st1 []
  else
    let r := assembleRecord st1.facility env.timestamp ev.elapsed env.pid ev.domType
      ev.opType ev.errorCode ev.fd ev.bytesTransferred ev.s1 ev.s2
    let t := dispatchTransport st1 env r
    let st2 := if t.1 ≠ 0 then { t.2.1 with failedIpcSends := t.2.1.failedIpcSends + 1 }
      else t.2.1
    .ok st2 (Action.dispatch r :: t.2.2)

/-- The START_ON_OPEN un-pause condition inside the OPEN branch of
`record`: start_on_open is set and `strstr(s1, start_on_open)` hits. -/
def openTrigger (startOnOpen : Option CStr) (p : CStr) : Bool :=
  match startOnOpen with
  | some sub => hasSub p sub
  | none => false

/-- Model of `record` (src/io_monitor.c lines 728-833). The gates appear
in source order: the socket circuit breaker, the transport-descriptor
self-exclusion, the stdin/stdout/stderr exclusion, the domain bitmask,
then the OPEN-specific checks (where a NULL s1 reaches `strcmp` and is
undefined behavior, modelled as `.crash`), then `recordTail`. -/
def record (st : MonitorState) (ev : Event) (env : OsEnv) : RecResult :=
  if st.failedSocketConnections > 0 then .ok st []
  else if st.socketFd ≠ FD_NONE ∧ ev.fd = st.socketFd then .ok st []
  else if ev.fd > -1 ∧ ev.fd < 3 ∧ ev.domType ≠ START_STOP then .ok st []
  else if st.domainBitFlags &&& (1 <<< ev.domType) = 0 then .ok st []
  else if ev.opType = OPEN then
    match ev.s1 with
    | none => .crash
    | some p =>
      if p = chars "." then .ok st []
      else if p = chars ".." then .ok st []
      else
        let st' := if st.paused ∧ openTrigger st.startOnOpen p = true
          then { st with paused := false } else st
        recordTail st' ev env
  else recordTail st ev env

/-- Run `record` over a sequence of candidate events, collecting all
transport actions; a crash ends the process, so nothing follows it. -/
def recordRun (st : MonitorState) : List (Event × OsEnv) → MonitorState × List Action
  | [] => (st, [])
  | (ev, env) :: rest =>
    match record st ev env with
    | .crash => (st, [])
    | .ok st' acts =>
      let t := recordRun st' rest
      (t.1, acts ++ t.2)

/-- Helper: with a tripped breaker, `record` returns immediately. -/
theorem record_breaker_tripped (st : MonitorState) (ev : Event) (env : OsEnv)
    (h : 0 < st.failedSocketConnections) :
    record st ev env = .ok st [] := by
  unfold record
  rw [if_pos h]

/-- Helper: with a tripped breaker, a whole run emits no action at all. -/
theorem recordRun_breaker_tripped (st : MonitorState)
    (h : 0 < st.failedSocketConnections) :
    ∀ evs : List (Event × OsEnv), recordRun st evs = (st, []) := by
  intro evs
  induction evs with
  | nil => rfl
  | cons e rest ih =>
    obtain ⟨ev, env⟩ := e
    unfold recordRun
    rw [record_breaker_tripped st ev env h]
    simp [ih]

/-- C2: once failed_socket_connections is non-zero, no later call of
`record` ever attempts a socket connection: the breaker check at the top
of `record` returns before any transport work, for every subsequent event
of the process. -/
theorem c2_breaker_no_more_attempts (st : MonitorState) (evs : List (Event × OsEnv))
    (h : 0 < st.failedSocketConnections) :
    (recordRun st evs).2.countP Action.isConnectAttempt = 0 := by
  rw [recordRun_breaker_tripped st h evs]
  rfl

/-- A monitor state whose socket breaker has already tripped once. -/
def stTripped : MonitorState where
  facility := chars "u"
  domainBitFlags := 4294967295
  paused := false
  startOnOpen := none
  haveElapsedThreshold := false
  elapsedThreshold := 0
  socketFd := -1
  failedSocketConnections := 1
  failedIpcSends := 0
  messageQueuePath := none

/-- A concrete FILE_READ candidate event on descriptor 7. -/
def evRead : Event where
  domType := 12
  opType := 3
  fd := 7
  s1 := none
  s2 := none
  elapsed := 1
  errorCode := 0
  bytesTransferred := 64

/-- A concrete OS environment where every transport call would succeed. -/
def envOk : OsEnv where
  timestamp := 1700000000
  pid := 42
  socketCreateOk := true
  connectOk := true
  headerWriteOk := true
  bodyWriteOk := true
  uninitRc := 0
  queueAvailable := true
  queueSendOk := true

/-- C2 witness: a concrete tripped state and a concrete subsequent event. -/
theorem c2_breaker_no_more_attempts_witness :
    (recordRun stTripped [(evRead, envOk)]).2.countP Action.isConnectAttempt = 0 :=
  c2_breaker_no_more_attempts stTripped [(evRead, envOk)] (by decide)

/-- C4: an event whose domain bit is unset in the bitmask is discarded:
`record` returns with the state unchanged and an empty action list, so
neither send_msg_queue nor send_tcp_socket is invoked. -/
theorem c4_domain_gate (st : MonitorState) (ev : Event) (env : OsEnv)
    (h : st.domainBitFlags &&& (1 <<< ev.domType) = 0) :
    record st ev env = .ok st [] := by
  unfold record
  by_cases h1 : st.failedSocketConnections > 0
  · rw [if_pos h1]
  · rw [if_neg h1]
    by_cases h2 : st.socketFd ≠ FD_NONE ∧ ev.fd = st.socketFd
    · rw [if_pos h2]
    · rw [if_neg h2]
      by_cases h3 : ev.fd > -1 ∧ ev.fd < 3 ∧ ev.domType ≠ START_STOP
      · rw [if_pos h3]
      · rw [if_neg h3, if_pos h]

/-- A monitor state enabling only the FILE_OPEN_CLOSE domain (bit 13). -/
def stOpenCloseOnly : MonitorState where
  facility := chars "u"
  domainBitFlags := 8192
  paused := false
  startOnOpen := none
  haveElapsedThreshold := false
  elapsedThreshold := 0
  socketFd := -1
  failedSocketConnections := 0
  failedIpcSends := 0
  messageQueuePath := none

/-- C4 witness: domain FILE_READ (bit 12) unset in a bitmask enabling only
FILE_OPEN_CLOSE (bit 13). -/
theorem c4_domain_gate_witness :
    record stOpenCloseOnly evRead envOk = .ok stOpenCloseOnly [] :=
  c4_domain_gate stOpenCloseOnly evRead envOk (by decide)

/-- A monitor state whose transport socket descriptor 9 is currently open. -/
def stSockOpen : MonitorState where
  facility := chars "u"
  domainBitFlags := 4294967295
  paused := false
  startOnOpen := none
  haveElapsedThreshold := false
  elapsedThreshold := 0
  socketFd := 9
  failedSocketConnections := 0
  failedIpcSends := 0
  messageQueuePath := none

/-- A FILE_WRITE candidate event on descriptor 9. -/
def evWriteFd9 : Event where
  domType := 11
  opType := 2
  fd := 9
  s1 := none
  s2 := none
  elapsed := 1
  errorCode := 0
  bytesTransferred := 10

/-- A FILE_WRITE candidate event on stdout. -/
def evWriteStdout : Event where
  domType := 11
  opType := 2
  fd := 1
  s1 := none
  s2 := none
  elapsed := 1
  errorCode := 0
  bytesTransferred := 10

/-- A monitor state with every domain enabled and the queue backend chosen. -/
def stAllQueue : MonitorState where
  facility := chars "u"
  domainBitFlags := 4294967295
  paused := false
  startOnOpen := none
  haveElapsedThreshold := false
  elapsedThreshold := 0
  socketFd := -1
  failedSocketConnections := 0
  failedIpcSends := 0
  messageQueuePath := some (chars "/tmp/q")

/-- A lifecycle (START_STOP) candidate event on descriptor 0, as emitted by
the constructor `init()` of io_monitor.c. -/
def evStartFd0 : Event where
  domType := 16
  opType := 47
  fd := 0
  s1 := some (chars "python app.py")
  s2 := none
  elapsed := 1
  errorCode := 0
  bytesTransferred := 0

/-- C7: (a) an event on the transport's currently-open socket descriptor is
discarded (state unchanged, no transport action); (b) an event on
descriptor 0, 1 or 2 whose domain is not START_STOP is discarded; and (c)
a START_STOP event on descriptor 0 is not blocked by rule (b): with its
domain enabled it is dispatched to a transport backend. -/
theorem c7_self_exclusion :
    (∀ (st : MonitorState) (ev : Event) (env : OsEnv),
      st.socketFd ≠ FD_NONE → ev.fd = st.socketFd →
      record st ev env = .ok st []) ∧
    (∀ (st : MonitorState) (ev : Event) (env : OsEnv),
      ev.fd > -1 → ev.fd < 3 → ev.domType ≠ START_STOP →
      record st ev env = .ok st []) ∧
    (record stAllQueue evStartFd0 envOk).deliveredB = true := by
  refine ⟨?_, ?_, by decide⟩
  · intro st ev env hsock hfd
    unfold record
    by_cases h1 : st.failedSocketConnections > 0
    · rw [if_pos h1]
    · rw [if_neg h1, if_pos ⟨hsock, hfd⟩]
  · intro st ev env hlo hhi hdom
    unfold record
    by_cases h1 : st.failedSocketConnections > 0
    · rw [if_pos h1]
    · rw [if_neg h1]
      by_cases h2 : st.socketFd ≠ FD_NONE ∧ ev.fd = st.socketFd
      · rw [if_pos h2]
      · rw [if_neg h2, if_pos ⟨hlo, hhi, hdom⟩]

/-- C7 witness: the two discard rules applied at concrete inputs (an event
on the open transport descriptor 9, and a FILE_WRITE event on stdout). -/
theorem c7_self_exclusion_witness :
    record stSockOpen evWriteFd9 envOk = .ok stSockOpen [] ∧
    record stAllQueue evWriteStdout envOk = .ok stAllQueue [] :=
  ⟨c7_self_exclusion.1 stSockOpen evWriteFd9 envOk (by decide) (by decide),
   c7_self_exclusion.2.1 stAllQueue evWriteStdout envOk (by decide) (by decide)
     (by decide)⟩

/-- The OPEN-specific argument checks that precede the pause logic in
`record`: s1 must be a non-NULL path different from "." and "..". -/
def openArgOk (op : Nat) (s1 : Option CStr) : Bool :=
  if op = OPEN then
    match s1 with
    | none => false
    | some p => !(p = chars ".") && !(p = chars "..")
  else true

/-- An event passes every gate of `record` that precedes the pause logic:
the breaker is untripped, the descriptor is neither the transport's own
socket nor 0/1/2 (unless lifecycle), the domain bit is set, and for OPEN
the path argument is present and not "." or "..". -/
def eligible (st : MonitorState) (ev : Event) : Prop :=
  st.failedSocketConnections = 0 ∧
  ¬(st.socketFd ≠ FD_NONE ∧ ev.fd = st.socketFd) ∧
  ¬(ev.fd > -1 ∧ ev.fd < 3 ∧ ev.domType ≠ START_STOP) ∧
  st.domainBitFlags &&& (1 <<< ev.domType) ≠ 0 ∧
  openArgOk ev.opType ev.s1 = true

instance (st : MonitorState) (ev : Event) : Decidable (eligible st ev) := by
  unfold eligible
  infer_instance

/-- Helper: the transport backends never touch the pause flag. -/
theorem dispatchTransport_paused (st : MonitorState) (env : OsEnv) (r : MonitorRecordM) :
    (dispatchTransport st env r).2.1.paused = st.paused := by
  unfold dispatchTransport sendMsgQueue sendTcpSocket
  split_ifs <;> rfl

/-- Helper: an un-paused state falls through `recordTail` to the dispatch
call, and the resulting state is still un-paused. -/
theorem recordTail_dispatches (st : MonitorState) (ev : Event) (env : OsEnv)
    (hp : st.paused = false) :
    ∃ st' r rest, recordTail st ev env = .ok st' (Action.dispatch r :: rest) ∧
      st'.paused = false := by
  unfold recordTail
  rw [if_neg (by simp [hp]), if_neg (by simp [hp])]
  refine ⟨_, _, _, rfl, ?_⟩
  split
  · exact (dispatchTransport_paused st env _).trans hp
  · exact (dispatchTransport_paused st env _).trans hp

/-- Helper: `recordTail` never sets the pause flag. -/
theorem recordTail_no_repause (st : MonitorState) (ev : Event) (env : OsEnv)
    (st' : MonitorState) (acts : List Action) (hp : st.paused = false)
    (h : recordTail st ev env = .ok st' acts) : st'.paused = false := by
  obtain ⟨st2, r, rest, heq, hps⟩ := recordTail_dispatches st ev env hp
  rw [heq] at h
  cases h
  exact hps

/-- A paused monitor state with START_ON_OPEN set to "app" but no domain
enabled (MONITOR_DOMAINS absent, the documented default). -/
def stPausedNoDomains : MonitorState where
  facility := chars "u"
  domainBitFlags := 0
  paused := true
  startOnOpen := some (chars "app")
  haveElapsedThreshold := false
  elapsedThreshold := 0
  socketFd := -1
  failedSocketConnections := 0
  failedIpcSends := 0
  messageQueuePath := some (chars "/tmp/q")

/-- A paused monitor state with START_ON_OPEN set to "app" and every
domain enabled. -/
def stPausedAll : MonitorState where
  facility := chars "u"
  domainBitFlags := 4294967295
  paused := true
  startOnOpen := some (chars "app")
  haveElapsedThreshold := false
  elapsedThreshold := 0
  socketFd := -1
  failedSocketConnections := 0
  failedIpcSends := 0
  messageQueuePath := some (chars "/tmp/q")

/-- An OPEN candidate event whose path contains "app". -/
def evOpenApp : Event where
  domType := 13
  opType := 0
  fd := 3
  s1 := some (chars "/tmp/app.log")
  s2 := none
  elapsed := 1
  errorCode := 0
  bytesTransferred := 0

/-- C6 counterexample: with START_ON_OPEN = "app" configured and the
domain bitmask left at its default 0, an OPEN event whose path contains
"app" does NOT clear the pause and is NOT delivered: the domain gate of
`record` returns before the un-pause check is ever reached, so the claim
that the first matching "open" always clears the pause fails. -/
theorem c6_trigger_filtered_cex :
    hasSub (chars "/tmp/app.log") (chars "app") = true ∧
    stPausedNoDomains.paused = true ∧
    record stPausedNoDomains evOpenApp envOk = .ok stPausedNoDomains [] := by
  refine ⟨by decide, by decide, ?_⟩
  exact c4_domain_gate stPausedNoDomains evOpenApp envOk (by decide)

/-- Helper: a still-paused state makes `recordTail` discard the event
when the elapsed-time trigger does not fire. -/
theorem recordTail_paused_blocked (st : MonitorState) (ev : Event) (env : OsEnv)
    (hp : st.paused = true)
    (hB : ¬(st.haveElapsedThreshold = true ∧ st.elapsedThreshold < ev.elapsed)) :
    recordTail st ev env = .ok st [] := by
  have hcond : ¬(st.paused = true ∧ st.haveElapsedThreshold = true ∧
      st.elapsedThreshold < ev.elapsed) := fun h => hB ⟨h.2.1, h.2.2⟩
  unfold recordTail
  rw [if_neg hcond, if_pos hp]

/-- C6 amended: while paused, an event that fires no un-pause trigger is
never delivered to Transport; restricted to OPEN events that pass the
gates preceding the pause logic (breaker untripped, descriptor not
excluded, domain bit set, path not "." or ".."), the first OPEN whose path
contains the configured substring clears the pause and is itself
dispatched; `record` never re-sets the pause flag; and once un-paused
every eligible event is dispatched to a transport backend. -/
theorem c6_amended :
    (∀ (st : MonitorState) (ev : Event) (env : OsEnv),
      st.paused = true →
      (∀ p : CStr, ev.opType = OPEN → ev.s1 = some p →
        openTrigger st.startOnOpen p = false) →
      ¬(st.haveElapsedThreshold = true ∧ st.elapsedThreshold < ev.elapsed) →
      (record st ev env).deliveredB = false) ∧
    (∀ (st : MonitorState) (ev : Event) (env : OsEnv) (p : CStr),
      st.paused = true → ev.opType = OPEN → ev.s1 = some p →
      openTrigger st.startOnOpen p = true → eligible st ev →
      ∃ st' acts, record st ev env = .ok st' acts ∧ st'.paused = false ∧
        acts.any Action.isDispatch = true) ∧
    (∀ (st : MonitorState) (ev : Event) (env : OsEnv)
      (st' : MonitorState) (acts : List Action),
      st.paused = false → record st ev env = .ok st' acts →
      st'.paused = false) ∧
    (∀ (st : MonitorState) (ev : Event) (env : OsEnv),
      st.paused = false → eligible st ev →
      ∃ st' acts, record st ev env = .ok st' acts ∧
        acts.any Action.isDispatch = true) := by
  refine ⟨?_, ?_, ?_, ?_⟩
  · intro st ev env hpause hA hB
    unfold record
    by_cases h1 : st.failedSocketConnections > 0
    · rw [if_pos h1]
      rfl
    rw [if_neg h1]
    by_cases h2 : st.socketFd ≠ FD_NONE ∧ ev.fd = st.socketFd
    · rw [if_pos h2]
      rfl
    rw [if_neg h2]
    by_cases h3 : ev.fd > -1 ∧ ev.fd < 3 ∧ ev.domType ≠ START_STOP
    · rw [if_pos h3]
      rfl
    rw [if_neg h3]
    by_cases h4 : st.domainBitFlags &&& (1 <<< ev.domType) = 0
    · rw [if_pos h4]
      rfl
    rw [if_neg h4]
    by_cases hop : ev.opType = OPEN
    · rw [if_pos hop]
      cases hs1 : ev.s1 with
      | none => rfl
      | some p =>
        have htr : openTrigger st.startOnOpen p = false := hA p hop hs1
        by_cases hdot : p = chars "."
        · simp only [if_pos hdot]
          rfl
        by_cases hdd : p = chars ".."
        · simp only [if_neg hdot, if_pos hdd]
          rfl
        simp only [if_neg hdot, if_neg hdd,
          if_neg (show ¬(st.paused = true ∧ openTrigger st.startOnOpen p = true) from
            fun hc => absurd hc.2 (by simp [htr]))]
        rw [recordTail_paused_blocked st ev env hpause hB]
        rfl
    · rw [if_neg hop]
      rw [recordTail_paused_blocked st ev env hpause hB]
      rfl
  · intro st ev env p hpause hop hs1 htrig helig
    obtain ⟨h1, h2, h3, h4, h5⟩ := helig
    rw [hop, hs1] at h5
    unfold openArgOk at h5
    rw [if_pos rfl] at h5
    simp only [Bool.and_eq_true, Bool.not_eq_true', decide_eq_false_iff_not] at h5
    unfold record
    rw [if_neg (by omega), if_neg h2, if_neg h3, if_neg h4, if_pos hop, hs1]
    simp only [if_neg h5.1, if_neg h5.2,
      if_pos (show st.paused = true ∧ openTrigger st.startOnOpen p = true from
        ⟨hpause, htrig⟩)]
    obtain ⟨st', r, rest, heq, hps⟩ :=
      recordTail_dispatches { st with paused := false } ev env rfl
    refine ⟨st', _, heq, hps, ?_⟩
    simp [Action.isDispatch]
  · intro st ev env st' acts hp h
    unfold record at h
    split at h
    · cases h; exact hp
    split at h
    · cases h; exact hp
    split at h
    · cases h; exact hp
    split at h
    · cases h; exact hp
    split at h
    · split at h
      · cases h
      rename_i p heq1
      split at h
      · cases h; exact hp
      split at h
      · cases h; exact hp
      rw [if_neg (by simp [hp])] at h
      exact recordTail_no_repause st ev env st' acts hp h
    · exact recordTail_no_repause st ev env st' acts hp h
  · intro st ev env hp helig
    obtain ⟨h1, h2, h3, h4, h5⟩ := helig
    unfold record
    rw [if_neg (by omega), if_neg h2, if_neg h3, if_neg h4]
    by_cases hop : ev.opType = OPEN
    · rw [if_pos hop]
      rw [hop] at h5
      unfold openArgOk at h5
      rw [if_pos rfl] at h5
      cases hs1 : ev.s1 with
      | none => rw [hs1] at h5; simp at h5
      | some p =>
        rw [hs1] at h5
        simp only [Bool.and_eq_true, Bool.not_eq_true', decide_eq_false_iff_not] at h5
        simp only [if_neg h5.1, if_neg h5.2,
          if_neg (show ¬(st.paused = true ∧ openTrigger st.startOnOpen p = true) from
            by simp [hp])]
        obtain ⟨st', r, rest, heq, hps⟩ := recordTail_dispatches st ev env hp
        refine ⟨st', _, heq, ?_⟩
        simp [Action.isDispatch]
    · rw [if_neg hop]
      obtain ⟨st', r, rest, heq, hps⟩ := recordTail_dispatches st ev env hp
      refine ⟨st', _, heq, ?_⟩
      simp [Action.isDispatch]

/-- C6 amended witness: on the concrete paused state with every domain
enabled, a FILE_READ event (no trigger) is not delivered, and the OPEN of
"/tmp/app.log" un-pauses and is dispatched. -/
theorem c6_amended_witness :
    (record stPausedAll evRead envOk).deliveredB = false ∧
    (∃ st' acts, record stPausedAll evOpenApp envOk = .ok st' acts ∧
      st'.paused = false ∧ acts.any Action.isDispatch = true) :=
  ⟨c6_amended.1 stPausedAll evRead envOk rfl
      (fun p hop _ => absurd hop (by decide)) (fun h => absurd h.1 (by decide)),
   c6_amended.2.1 stPausedAll evOpenApp envOk (chars "/tmp/app.log") rfl rfl rfl
     (by decide) (by decide)⟩

/-- A monitor state with every domain enabled and the socket backend. -/
def stAllSocket : MonitorState where
  facility := chars "u"
  domainBitFlags := 4294967295
  paused := false
  startOnOpen := none
  haveElapsedThreshold := false
  elapsedThreshold := 0
  socketFd := -1
  failedSocketConnections := 0
  failedIpcSends := 0
  messageQueuePath := none

/-- The candidate event the `open` wrapper of io_monitor.c hands to
`record`: domain FILE_OPEN_CLOSE, operation OPEN, the returned descriptor,
the result of `realpath(pathname, NULL)` as s1 (NULL on failure), and the
error code derived from errno when the descriptor is -1. -/
def openEvent (realFd errorCode : Int) (realpathResult : Option CStr)
    (elapsed : ℚ) : Event where
  domType := 13
  opType := 0
  fd := realFd
  s1 := realpathResult
  s2 := none
  elapsed := elapsed
  errorCode := errorCode
  bytesTransferred := 0

/-- Model of the `open` wrapper (src/io_monitor.c lines 837-856): run the
real `open`, derive the error code, call `record` with the realpath of the
pathname, and return the real descriptor unchanged. -/
def openShim (st : MonitorState) (env : OsEnv) (elapsed : ℚ)
    (realFd realErrno : Int) (realpathResult : Option CStr) : RecResult × Int :=
  let errorCode : Int := if realFd = -1 then realErrno else 0
  (record st (openEvent realFd errorCode realpathResult elapsed) env, realFd)

/-- C3: the `open` wrapper always hands back exactly the descriptor the
real `open` produced, but the telemetry layer can crash the monitored
application: when the real `open` fails (fd -1, errno ENOENT) so that
`realpath` returns NULL, and the FILE_OPEN_CLOSE domain is enabled,
`record` reaches `strcmp(s1, ".")` with s1 == NULL, a NULL dereference
(modelled as `RecResult.crash`). -/
theorem c3_open_shim_crash :
    (∀ (st : MonitorState) (env : OsEnv) (el : ℚ) (fd er : Int)
      (rp : Option CStr), (openShim st env el fd er rp).2 = fd) ∧
    (openShim stAllSocket envOk 1 (-1) 2 none).1 = RecResult.crash := by
  refine ⟨fun st env el fd er rp => rfl, ?_⟩
  decide

/-- Helper: scanning a NUL-free chunk, `takeWhile` stops exactly at the
first NUL after it. -/
theorem takeWhile_til_nul (ys zs : List Char) (h : ∀ c ∈ ys, c ≠ nulChar) :
    (ys ++ nulChar :: zs).takeWhile (fun c => c ≠ nulChar) = ys := by
  induction ys with
  | nil => rw [List.nil_append, List.takeWhile_cons_of_neg (by simp)]
  | cons y t ih =>
    have hy : y ≠ nulChar := h y (by simp)
    rw [List.cons_append, List.takeWhile_cons_of_pos (by simp [hy]),
      ih (fun c hc => h c (by simp [hc]))]

/-- Helper: a fully NUL field decodes to the empty C string. -/
theorem cStrVal_replicate_nul (n : Nat) : cStrVal (List.replicate n nulChar) = [] := by
  cases n with
  | zero => rfl
  | succ m => simp [cStrVal, List.replicate_succ]

/-- Helper: the strncpy-plus-terminator copy always fills the field to
exactly its capacity, never beyond. -/
theorem length_recordFieldS (s : Option CStr) (n : Nat) :
    (recordFieldS s n).length = n := by
  cases s with
  | none => simp [recordFieldS]
  | some s =>
    simp only [recordFieldS, List.length_set, List.length_append,
      List.length_take, List.length_replicate]
    omega

/-- Helper: the copied field decodes to the source truncated to capacity
minus one characters. -/
theorem cStrVal_recordFieldS_some (s : CStr) (n : Nat) (hn : 1 ≤ n)
    (h : nulChar ∉ s) :
    cStrVal (recordFieldS (some s) n) = s.take (n - 1) := by
  have ht : (s.take n ++ List.replicate (n - s.length) nulChar).length = n := by
    simp only [List.length_append, List.length_take, List.length_replicate]
    omega
  simp only [recordFieldS, cStrVal]
  rw [List.set_eq_take_cons_drop nulChar (by omega),
    List.drop_eq_nil_of_le (by omega), List.take_append_eq_append_take,
    List.take_take, Nat.min_eq_left (by omega), List.take_replicate]
  have hfree : ∀ c ∈ s.take (n - 1), c ≠ nulChar :=
    fun c hc hceq => h (hceq ▸ List.take_subset _ _ hc)
  rcases hk : min (n - 1 - (s.take n).length) (n - s.length) with _ | j
  · simpa using takeWhile_til_nul (s.take (n - 1)) [] hfree
  · rw [List.replicate_succ, List.append_assoc]
    exact takeWhile_til_nul (s.take (n - 1))
      (List.replicate j nulChar ++ [nulChar]) hfree

/-- C8: for every string parameter, the assembled record's field is the
NUL-terminated prefix of at most capacity-minus-one source characters, the
field occupies exactly its capacity (the copy cannot spill into adjacent
fields), an absent (NULL) parameter leaves the field as the empty string,
and none of the scalar fields is altered by the copies. -/
theorem c8_record_string_fields (fac : CStr) (ts : Int) (el : ℚ) (pid : Int)
    (dom op : Nat) (err fd bts : Int) (s1v s2v : CStr)
    (h1 : nulChar ∉ s1v) (h2 : nulChar ∉ s2v) :
    cStrVal (assembleRecord fac ts el pid dom op err fd bts (some s1v) (some s2v)).s1
        = s1v.take (PATH_MAX - 1) ∧
    cStrVal (assembleRecord fac ts el pid dom op err fd bts (some s1v) (some s2v)).s2
        = s2v.take (STR_LEN - 1) ∧
    (assembleRecord fac ts el pid dom op err fd bts (some s1v) (some s2v)).s1.length
        = PATH_MAX ∧
    (assembleRecord fac ts el pid dom op err fd bts (some s1v) (some s2v)).s2.length
        = STR_LEN ∧
    cStrVal (assembleRecord fac ts el pid dom op err fd bts none none).s1 = [] ∧
    cStrVal (assembleRecord fac ts el pid dom op err fd bts none none).s2 = [] ∧
    (assembleRecord fac ts el pid dom op err fd bts (some s1v) (some s2v)).timestamp
        = ts ∧
    (assembleRecord fac ts el pid dom op err fd bts (some s1v) (some s2v)).elapsedTime
        = el ∧
    (assembleRecord fac ts el pid dom op err fd bts (some s1v) (some s2v)).pid = pid ∧
    (assembleRecord fac ts el pid dom op err fd bts (some s1v) (some s2v)).domType
        = dom ∧
    (assembleRecord fac ts el pid dom op err fd bts (some s1v) (some s2v)).opType
        = op ∧
    (assembleRecord fac ts el pid dom op err fd bts (some s1v) (some s2v)).errorCode
        = err ∧
    (assembleRecord fac ts el pid dom op err fd bts (some s1v) (some s2v)).fd = fd ∧
    (assembleRecord fac ts el pid dom op err fd bts (some s1v)
      (some s2v)).bytesTransferred = bts := by
  refine ⟨?_, ?_, ?_, ?_, ?_, ?_, rfl, rfl, rfl, rfl, rfl, rfl, rfl, rfl⟩
  · exact cStrVal_recordFieldS_some s1v PATH_MAX (by decide) h1
  · exact cStrVal_recordFieldS_some s2v STR_LEN (by decide) h2
  · exact length_recordFieldS (some s1v) PATH_MAX
  · exact length_recordFieldS (some s2v) STR_LEN
  · exact cStrVal_replicate_nul PATH_MAX
  · exact cStrVal_replicate_nul STR_LEN

/-- Helper: a replicated character list avoids any other character. -/
theorem not_mem_replicate_of_ne {a b : Char} (hab : b ≠ a) (n : Nat) :
    b ∉ List.replicate n a := by
  simp [List.mem_replicate, hab]

/-- A 300-character path parameter, longer than the 256-character short
string field capacity. -/
def path300 : CStr := List.replicate 300 'a'

/-- A second 300-character string parameter. -/
def name300 : CStr := List.replicate 300 'b'

/-- C8 witness: the truncation statement applied to two 300-character
parameters (the s2 field keeps exactly its 255-character prefix). -/
theorem c8_record_string_fields_witness :
    cStrVal (assembleRecord (chars "u") 1700000000 1 42 13 0 0 5 0 (some path300)
        (some name300)).s1 = path300.take (PATH_MAX - 1) ∧
    cStrVal (assembleRecord (chars "u") 1700000000 1 42 13 0 0 5 0 (some path300)
        (some name300)).s2 = name300.take (STR_LEN - 1) ∧
    (assembleRecord (chars "u") 1700000000 1 42 13 0 0 5 0 (some path300)
        (some name300)).s1.length = PATH_MAX ∧
    (assembleRecord (chars "u") 1700000000 1 42 13 0 0 5 0 (some path300)
        (some name300)).s2.length = STR_LEN ∧
    cStrVal (assembleRecord (chars "u") 1700000000 1 42 13 0 0 5 0 none none).s1
        = [] ∧
    cStrVal (assembleRecord (chars "u") 1700000000 1 42 13 0 0 5 0 none none).s2
        = [] ∧
    (assembleRecord (chars "u") 1700000000 1 42 13 0 0 5 0 (some path300)
        (some name300)).timestamp = 1700000000 ∧
    (assembleRecord (chars "u") 1700000000 1 42 13 0 0 5 0 (some path300)
        (some name300)).elapsedTime = 1 ∧
    (assembleRecord (chars "u") 1700000000 1 42 13 0 0 5 0 (some path300)
        (some name300)).pid = 42 ∧
    (assembleRecord (chars "u") 1700000000 1 42 13 0 0 5 0 (some path300)
        (some name300)).domType = 13 ∧
    (assembleRecord (chars "u") 1700000000 1 42 13 0 0 5 0 (some path300)
        (some name300)).opType = 0 ∧
    (assembleRecord (chars "u") 1700000000 1 42 13 0 0 5 0 (some path300)
        (some name300)).errorCode = 0 ∧
    (assembleRecord (chars "u") 1700000000 1 42 13 0 0 5 0 (some path300)
        (some name300)).fd = 5 ∧
    (assembleRecord (chars "u") 1700000000 1 42 13 0 0 5 0 (some path300)
        (some name300)).bytesTransferred = 0 :=
  c8_record_string_fields (chars "u") 1700000000 1 42 13 0 0 5 0 path300 name300
    (not_mem_replicate_of_ne (by decide) 300)
    (not_mem_replicate_of_ne (by decide) 300)

/-- Modelled from the spec: the Taxonomy's domain-name table. The header
domains_names.h it lives in is not part of src/; per the spec the
configured domain list is a comma-separated list of Domain names looked up
by name against the Taxonomy, one name per Domain ordinal of
src/domains.h. The spellings mirror the DOMAIN_TYPE enumerators; nothing
below depends on them beyond their being 18 distinct names. -/
def domainsNames : List CStr :=
  [chars "LINKS", chars "XATTRS", chars "DIRS", chars "FILE_SYSTEMS",
   chars "FILE_DESCRIPTORS", chars "SYNCS", chars "SOCKETS", chars "SEEKS",
   chars "FILE_SPACE", chars "PROCESSES", chars "FILE_METADATA",
   chars "FILE_WRITE", chars "FILE_READ", chars "FILE_OPEN_CLOSE",
   chars "MISC", chars "DIR_METADATA", chars "START_STOP", chars "HTTP"]

/-- The strtok_r loop over "," in domain_list_to_bit_mask: the non-empty
substrings between commas. -/
def strtokList (l : CStr) : List CStr :=
  (List.splitOn ',' l).filter (fun t => !t.isEmpty)

/-- The inner loop of domain_list_to_bit_mask: the bit of the first
Taxonomy name equal to the token (break on first match), or no bit when no
name matches. -/
def tokenBitMask (t : CStr) : Nat :=
  ((domainsNames.findIdx? (fun nm => nm = t)).map fun i => 1 <<< i).getD 0

/-- domain_list_to_bit_mask (src/io_monitor.c lines 570-589). -/
def domain_list_to_bit_mask (dl : CStr) : Nat :=
  (strtokList dl).foldl (fun m t => m ||| tokenBitMask t) 0

/-- The unsigned value of the int -1 that initialize_monitor assigns to
domain_bit_flags for "ALL". -/
def UINT_MAX : Nat := 4294967295

/-- The MONITOR_DOMAINS handling of initialize_monitor (src/io_monitor.c
lines 605-615): absent means nothing enabled, the exact string "ALL" means
every bit set, anything else goes through domain_list_to_bit_mask. -/
def monitorDomainFlags (monitorDomainList : Option CStr) : Nat :=
  match monitorDomainList with
  | none => 0
  | some l => if l = chars "ALL" then UINT_MAX else domain_list_to_bit_mask l

/-- Helper: the modelled domain-name table has no duplicate names. -/
theorem domainsNames_nodup : domainsNames.Nodup := by decide

/-- Helper: the token lookup sets exactly the bit of the name the token
equals. -/
theorem tokenBitMask_testBit (t : CStr) (i : Nat) (hi : i < domainsNames.length) :
    ((tokenBitMask t).testBit i = true ↔ domainsNames.get ⟨i, hi⟩ = t) := by
  unfold tokenBitMask
  cases hf : domainsNames.findIdx? (fun nm => nm = t) with
  | none =>
    rw [List.findIdx?_eq_none_iff] at hf
    have h0 := hf (domainsNames.get ⟨i, hi⟩) (List.get_mem _ _ _)
    simp only [decide_eq_false_iff_not] at h0
    simp only [Option.map_none', Option.getD_none, Nat.zero_testBit]
    exact iff_of_false (by simp) h0
  | some j =>
    obtain ⟨hj, hfi⟩ := List.findIdx?_eq_some_iff_findIdx_eq.mp hf
    obtain ⟨hpj, hfirst⟩ := (List.findIdx_eq hj).mp hfi
    simp only [decide_eq_true_eq] at hpj
    have h2 : (1 <<< j : Nat) = 2 ^ j := by rw [Nat.shiftLeft_eq, one_mul]
    simp only [Option.map_some', Option.getD_some]
    rw [h2, Nat.testBit_two_pow]
    simp only [decide_eq_true_eq]
    constructor
    · intro hij
      subst hij
      exact hpj
    · intro hit
      have hji : domainsNames[j] = domainsNames[i] := by
        rw [hpj]
        exact hit.symm
      exact domainsNames_nodup.getElem_inj_iff.mp hji

/-- Helper: a bit of the accumulated or-fold is set iff it was set in the
accumulator or contributed by some token. -/
theorem foldl_or_testBit (ts : List CStr) (acc : Nat) (i : Nat) :
    ((ts.foldl (fun m t => m ||| tokenBitMask t) acc).testBit i) =
      (acc.testBit i || ts.any (fun t => (tokenBitMask t).testBit i)) := by
  induction ts generalizing acc with
  | nil => simp
  | cons t rest ih =>
    simp [List.foldl_cons, ih, Nat.testBit_or, Bool.or_assoc]

/-- C5 counterexample: the lowercase literal "all" does NOT enable every
domain. The code compares against "ALL" with strcmp (case sensitive), so
"all" falls through to the name lookup, matches no Taxonomy name, and
yields the empty bitmask: even the LINKS bit stays unset. -/
theorem c5_lowercase_all_cex :
    monitorDomainFlags (some (chars "all")) = 0 ∧
    (monitorDomainFlags (some (chars "all"))).testBit 0 = false ∧
    (UINT_MAX.testBit 0 = true) := by decide

/-- C5 amended: with the literal corrected from "all" to the exact
(case-sensitive) string "ALL": an absent MONITOR_DOMAINS enables nothing,
"ALL" sets every bit of the unsigned bitmask, and otherwise bit i is
enabled exactly when the i-th Taxonomy domain name occurs among the
comma-separated tokens of the list. -/
theorem c5_amended :
    monitorDomainFlags none = 0 ∧
    monitorDomainFlags (some (chars "ALL")) = UINT_MAX ∧
    (∀ (dl : CStr) (i : Nat) (hi : i < domainsNames.length),
      ((domain_list_to_bit_mask dl).testBit i = true ↔
        domainsNames.get ⟨i, hi⟩ ∈ strtokList dl)) := by
  refine ⟨rfl, by decide, ?_⟩
  intro dl i hi
  unfold domain_list_to_bit_mask
  rw [foldl_or_testBit]
  simp only [Nat.zero_testBit, Bool.false_or, List.any_eq_true]
  constructor
  · rintro ⟨t, ht, htb⟩
    rw [tokenBitMask_testBit t i hi] at htb
    exact htb ▸ ht
  · intro hmem
    exact ⟨_, hmem, (tokenBitMask_testBit _ i hi).mpr rfl⟩

/-- C5 amended witness: the SOCKETS bit (6) of the mask for the list
"SOCKETS,FILE_READ" is set iff "SOCKETS" is among its tokens. -/
theorem c5_amended_witness :
    ((domain_list_to_bit_mask (chars "SOCKETS,FILE_READ")).testBit 6 = true ↔
      domainsNames.get ⟨6, by decide⟩ ∈ strtokList (chars "SOCKETS,FILE_READ")) :=
  c5_amended.2.2 (chars "SOCKETS,FILE_READ") 6 (by decide)

/-- Little-endian bytes of the low 8*k bits of an integer. -/
def leBytes (k : Nat) (x : Int) : List Nat :=
  (List.range k).map fun i => ((x % (2 ^ (8 * k))).toNat / 256 ^ i) % 256

/-- Helper: a k-byte little-endian field is k bytes long. -/
theorem length_leBytes (k : Nat) (x : Int) : (leBytes k x).length = k := by
  simp [leBytes]

/-- Byte value of a character stored in a char array. -/
def byteOf (c : Char) : Nat := c.toNat % 256

/-- The byte image of struct monitor_record_t (src/monitor_record.h) as
laid out by the compiler on the 64-bit platform both sides share: the
256-byte facility array, seven 4-byte fields, 4 bytes of padding that
align the 8-byte size_t bytes_transferred, then the 4096-byte s1 and the
256-byte s2 arrays. The float elapsed_time occupies 4 bytes whose IEEE-754
bit pattern is passed in as `elapsedBytes`. -/
def encodeRecord (r : MonitorRecordM) (elapsedBytes : List Nat) : List Nat :=
  r.facility.map byteOf ++ leBytes 4 r.timestamp ++ elapsedBytes ++
  leBytes 4 r.pid ++ leBytes 4 (Int.ofNat r.domType) ++
  leBytes 4 (Int.ofNat r.opType) ++ leBytes 4 r.errorCode ++ leBytes 4 r.fd ++
  List.replicate 4 0 ++ leBytes 8 r.bytesTransferred ++
  r.s1.map byteOf ++ r.s2.map byteOf

/-- sizeof(struct monitor_record_t): 256 + 7 * 4 + 4 padding + 8 + 4096 +
256 = 4648 bytes; this is the msgsnd length used by send_msg_queue. -/
def sizeofMonitorRecord : Nat := 4648

/-- The queue message built by send_msg_queue (src/io_monitor.c lines
622-647): message type tag 1, payload a byte-for-byte copy of the record
struct, sent with msgsnd length sizeof(*monitor_record). -/
def sendMsgQueueWire (r : MonitorRecordM) (elapsedBytes : List Nat) :
    Int × List Nat :=
  (1, encodeRecord r elapsedBytes)

/-- Result of one msgrcv call. -/
inductive MsgRcv where
  | ok (payload : List Nat)
  | e2big
deriving DecidableEq

/-- The msgrcv nbytes argument in the collector loop of src/mq_listener.c
(it declares its own MONITOR_MESSAGE with a 256-byte payload). -/
def mqListenerMsgCap : Nat := 256

/-- System V msgrcv semantics as the collector calls it (flag 0, so no
MSG_NOERROR): a queued message whose payload exceeds nbytes makes the call
fail with E2BIG and leaves the message on the queue. -/
def msgrcvModel (payload : List Nat) (nbytes : Nat) : MsgRcv :=
  if payload.length ≤ nbytes then .ok payload else .e2big

/-- Helper: the encoded record of an assembled record always occupies
exactly sizeof(struct monitor_record_t) bytes. -/
theorem length_encodeRecord (r : MonitorRecordM) (eb : List Nat)
    (hf : r.facility.length = STR_LEN) (h1 : r.s1.length = PATH_MAX)
    (h2 : r.s2.length = STR_LEN) (he : eb.length = 4) :
    (encodeRecord r eb).length = sizeofMonitorRecord := by
  simp [encodeRecord, length_leBytes, hf, h1, h2, he, sizeofMonitorRecord,
    STR_LEN, PATH_MAX]

/-- A representative record as the monitor assembles it. -/
def sampleRecord : MonitorRecordM :=
  assembleRecord (chars "u") 1700000000 1 1234 13 0 0 5 0
    (some (chars "/tmp/file")) none

/-- C1: the queue-backend round trip cannot reproduce any record. The
producer msgsnd's the 4648-byte binary struct, but the collector's msgrcv
caps messages at 256 bytes with flag 0, so every receive fails with E2BIG
before print_log_entry ever decodes anything (and print_log_entry would
parse the payload as comma-separated ASCII text, not as the binary
struct). Evaluated here at a representative record. -/
theorem c1_queue_roundtrip_fails :
    sizeofMonitorRecord = 4648 ∧
    mqListenerMsgCap < sizeofMonitorRecord ∧
    (sendMsgQueueWire sampleRecord (List.replicate 4 0)).2.length
      = sizeofMonitorRecord ∧
    msgrcvModel (sendMsgQueueWire sampleRecord (List.replicate 4 0)).2
      mqListenerMsgCap = MsgRcv.e2big := by
  have hlen : (sendMsgQueueWire sampleRecord (List.replicate 4 0)).2.length
      = sizeofMonitorRecord :=
    length_encodeRecord _ _
      (show sampleRecord.facility.length = STR_LEN from
        length_recordFieldS (some (chars "u")) STR_LEN)
      (show sampleRecord.s1.length = PATH_MAX from
        length_recordFieldS (some (chars "/tmp/file")) PATH_MAX)
      (show sampleRecord.s2.length = STR_LEN from
        length_recordFieldS none STR_LEN)
      (by simp)
  refine ⟨rfl, by decide, hlen, ?_⟩
  have hgt : ¬ (sendMsgQueueWire sampleRecord
      (List.replicate 4 0)).2.length ≤ mqListenerMsgCap := by
    rw [hlen]
    decide
  unfold msgrcvModel
  rw [if_neg hgt]

end IOMon

namespace UML

/-- MAX_COLUMNS from src/umlmagic.c. -/
def MAX_COLUMNS : Int := 4096

/-- MAIN_COL_SEP from src/umlmagic.c. -/
def MAIN_COL_SEP : Int := 30

/-- COL_WIDTH from src/umlmagic.c. -/
def COL_WIDTH : Int := 10

/-- Operation ordinals from src/ops.h used by find_columns. -/
def START : Nat := 47
def STOP : Nat := 48
def BIND : Nat := 46
def CONNECT : Nat := 43

/-- The fields of a persisted monitor_record_t that find_columns reads:
op_type, pid, and the two string parameters. -/
structure DumpRec where
  opType : Nat
  pid : Int
  s1 : CStr
  s2 : CStr
deriving DecidableEq

/-- struct column of src/umlmagic.c. -/
structure Column where
  pid : Int
  ppid : Int
  command : CStr
  exeFn : CStr
  marTop : Int
  marLeft : Int
  height : Int
  primary : Bool
deriving DecidableEq

/-- A zero-initialized column slot (C globals start zeroed). -/
def zeroColumn : Column where
  pid := 0
  ppid := 0
  command := []
  exeFn := []
  marTop := 0
  marLeft := 0
  height := 0
  primary := false

/-- struct arrow of src/umlmagic.c. -/
structure Arrow where
  fromX : Int
  toX : Int
  yPoint : Int
  description : CStr
deriving DecidableEq

/-- State of one find_columns pass: the committed columns (slots 0 ..
num_columns - 1), num_pri_columns, the port_to_col table as a total map
over ports (the C global array is zero-initialized), the arrows, the
column indices obtained from find_col_by_pid or port_to_col and used to
subscript the columns array (in source order), and the break flag of the
num_columns == MAX_COLUMNS check. -/
structure UState where
  topPos : Int
  columns : List Column
  numPriColumns : Int
  portToCol : Int → Int
  arrows : List Arrow
  accesses : List Int
  broken : Bool

/-- find_col_by_pid (src/umlmagic.c lines 61-69): index of the first
committed column with this pid, else -1. -/
def find_col_by_pid (cols : List Column) (pid : Int) : Int :=
  match cols.findIdx? (fun c => c.pid = pid) with
  | some i => Int.ofNat i
  | none => -1

/-- Read columns[i]: a committed slot yields its column; any other index
(-1 from a failed lookup, or an uncommitted slot such as index 0 of the
empty array) reaches zero-initialized or out-of-array memory, modelled as
the zeroed column. Callers record the index in `accesses`. -/
def colAt (cols : List Column) (i : Int) : Column :=
  if h : 0 ≤ i ∧ i.toNat < cols.length then cols.get ⟨i.toNat, h.2⟩ else zeroColumn

/-- Write columns[i]; a write through index -1 lands before the array
(undefined behavior), modelled as leaving the committed columns alone. -/
def setCol (cols : List Column) (i : Int) (c : Column) : List Column :=
  if 0 ≤ i then cols.set i.toNat c else cols

/-- Value of a digit run. -/
def digitsVal (ds : CStr) : Int :=
  ds.foldl (fun n c => n * 10 + Int.ofNat (c.toNat - 48)) 0

/-- Read a leading run of digits. -/
def readNat (s : CStr) : Option (Int × CStr) :=
  let ds := s.takeWhile Char.isDigit
  if ds.isEmpty then none else some (digitsVal ds, s.dropWhile Char.isDigit)

/-- Read an optionally negated leading integer. -/
def readInt (s : CStr) : Option (Int × CStr) :=
  match s with
  | '-' :: rest => (readNat rest).map (fun v => (-v.1, v.2))
  | _ => readNat s

/-- atoi, used on the ppid carried in s2. -/
def atoi (s : CStr) : Int :=
  match readInt s with
  | some v => v.1
  | none => 0

/-- Expect one character. -/
def expectCh (c : Char) (s : CStr) : Option CStr :=
  match s with
  | x :: r => if x = c then some r else none
  | [] => none

/-- sscanf(s, "%d.%d.%d.%d:%d"): four dot-separated integers, a colon,
and the port. (When the input does not match this shape the C variables
stay uninitialized; no analyzed input exercises that.) -/
def parseAddrPort (s : CStr) : Option (Int × Int × Int × Int × Int) := do
  let v1 ← readInt s
  let r1 ← expectCh '.' v1.2
  let v2 ← readInt r1
  let r2 ← expectCh '.' v2.2
  let v3 ← readInt r2
  let r3 ← expectCh '.' v3.2
  let v4 ← readInt r3
  let r4 ← expectCh ':' v4.2
  let v5 ← readInt r4
  pure (v1.1, v2.1, v3.1, v4.1, v5.1)

/-- The exe_fn derivation on a start event: blanks become slashes, the
result is tokenized on "/" (strtok skips empty tokens), and the first
token containing "swift" is kept; otherwise the field stays empty. -/
def exeFnOf (cmd : CStr) : CStr :=
  let toks := (List.splitOn '/' (cmd.map fun c => if c = ' ' then '/' else c)).filter
    (fun t => !t.isEmpty)
  match toks.find? (fun t => hasSub t (chars "swift")) with
  | some t => t
  | none => []

/-- Decimal characters of an integer. -/
def intChars (i : Int) : CStr := (toString i).toList

/-- The arrow label sprintf("Connec to to %d.%d.%d.%d:%d", ...). -/
def connDesc (i1 i2 i3 i4 port : Int) : CStr :=
  chars "Connec to to " ++ intChars i1 ++ chars "." ++ intChars i2 ++ chars "." ++
  intChars i3 ++ chars "." ++ intChars i4 ++ chars ":" ++ intChars port

/-- One iteration of the find_columns loop (src/umlmagic.c lines 87-167)
on one dump record. top_pos++ happens first; a START at the MAX_COLUMNS
limit breaks out of the whole loop. On START, the parent lookup for a
non-primary column happens while computing mar_left, before the
unknown-parent check that drops the column. On STOP/BIND/CONNECT the
looked-up indices subscript the columns array unchecked. -/
def step (st : UState) (r : DumpRec) : UState :=
  if st.broken then st else
  let st := { st with topPos := st.topPos + 1 }
  if r.opType = START then
    if Int.ofNat st.columns.length = MAX_COLUMNS then { st with broken := true }
    else
      let priCol := hasSub r.s1 (chars "python")
      let invisible := hasSub r.s1 (chars "sh")
      let ppid := atoi r.s2
      let parentIdx := find_col_by_pid st.columns ppid
      let marLeft := if priCol then MAIN_COL_SEP / 2 + MAIN_COL_SEP * st.numPriColumns
        else (colAt st.columns parentIdx).marLeft + COL_WIDTH * 2 / 3
      let st := if priCol then st else { st with accesses := st.accesses ++ [parentIdx] }
      if ¬priCol ∧ parentIdx = -1 then st
      else
        let c : Column :=
          { pid := r.pid
            ppid := ppid
            command := r.s1
            exeFn := exeFnOf r.s1
            marTop := st.topPos
            marLeft := marLeft
            height := if invisible then 5 else 0
            primary := priCol }
        { st with
          columns := st.columns ++ [c]
          numPriColumns := if priCol then st.numPriColumns + 1 else st.numPriColumns }
  else if r.opType = STOP then
    let cid := find_col_by_pid st.columns r.pid
    let st := { st with accesses := st.accesses ++ [cid] }
    let c := colAt st.columns cid
    let h := st.topPos - c.marTop
    if h < 10 then
      { st with
        topPos := st.topPos + (10 - h)
        columns := setCol st.columns cid { c with height := 10 } }
    else
      { st with columns := setCol st.columns cid { c with height := h } }
  else if r.opType = BIND then
    let cid := find_col_by_pid st.columns r.pid
    let st := { st with accesses := st.accesses ++ [cid] }
    match parseAddrPort r.s1 with
    | some v =>
      { st with portToCol := fun q => if q = v.2.2.2.2 then cid else st.portToCol q }
    | none => st
  else if r.opType = CONNECT then
    let scid := find_col_by_pid st.columns r.pid
    let st := { st with accesses := st.accesses ++ [scid] }
    match parseAddrPort r.s1 with
    | some v =>
      let port := v.2.2.2.2
      let tcid := st.portToCol port
      let a : Arrow :=
        { fromX := (colAt st.columns scid).marLeft + COL_WIDTH / 2
          toX := (colAt st.columns tcid).marLeft + COL_WIDTH / 2
          yPoint := st.topPos + 5
          description := connDesc v.1 v.2.1 v.2.2.1 v.2.2.2.1 port }
      { st with
        accesses := st.accesses ++ [scid, tcid]
        arrows := st.arrows ++ [a]
        topPos := st.topPos + 10 }
    | none => st
  else st

/-- The zero-initialized globals and top_pos = 200 at entry. -/
def initState : UState where
  topPos := 200
  columns := []
  numPriColumns := 0
  portToCol := fun _ => 0
  arrows := []
  accesses := []
  broken := false

/-- find_columns (src/umlmagic.c lines 85-177): the loop over the dump,
then top_pos += 20 and the back-fill of every column whose height is still
below 5. -/
def find_columns (dump : List DumpRec) : UState :=
  let st := dump.foldl step initState
  let st2 := { st with topPos := st.topPos + 20 }
  { st2 with columns := st2.columns.map fun c =>
      if c.height < 5 then { c with height := st2.topPos - c.marTop } else c }

/-- start(pid=10, parent=1, cmd="python app.py"). -/
def recStart10 : DumpRec where
  opType := 47
  pid := 10
  s1 := chars "python app.py"
  s2 := chars "1"

/-- bind(pid=10, addr="127.0.0.1:9000"). -/
def recBind10 : DumpRec where
  opType := 46
  pid := 10
  s1 := chars "127.0.0.1:9000"
  s2 := []

/-- start(pid=11, parent=10, cmd="sh -c ..."). -/
def recStart11 : DumpRec where
  opType := 47
  pid := 11
  s1 := chars "sh -c ..."
  s2 := chars "10"

/-- connect(pid=11, addr="127.0.0.1:9000"). -/
def recConnect11 : DumpRec where
  opType := 43
  pid := 11
  s1 := chars "127.0.0.1:9000"
  s2 := []

/-- stop(pid=11). -/
def recStop11 : DumpRec where
  opType := 48
  pid := 11
  s1 := []
  s2 := []

/-- stop(pid=10). -/
def recStop10 : DumpRec where
  opType := 48
  pid := 10
  s1 := []
  s2 := []

/-- The six-event scenario of the spec. -/
def umlScenario : List DumpRec :=
  [recStart10, recBind10, recStart11, recConnect11, recStop11, recStop10]

/-- The layout model the pass produces on the scenario. -/
def umlModel : UState := find_columns umlScenario

/-- C9: on the scenario, the model holds exactly two columns, pid 10 the
only primary one and pid 11 the only secondary one, pid 11's column offset
to the right of pid 10's; exactly one arrow, running from pid 11's column
position to pid 10's column position and labeled with port 9000; and both
columns' heights finalized to at least the minimum visible height 10. -/
theorem c9_reconstructor_scenario :
    umlModel.columns.map Column.pid = [10, 11] ∧
    (umlModel.columns.filter Column.primary).map Column.pid = [10] ∧
    (umlModel.columns.filter fun c => !c.primary).map Column.pid = [11] ∧
    (colAt umlModel.columns 0).marLeft < (colAt umlModel.columns 1).marLeft ∧
    umlModel.arrows.map Arrow.fromX
      = [(colAt umlModel.columns 1).marLeft + COL_WIDTH / 2] ∧
    umlModel.arrows.map Arrow.toX
      = [(colAt umlModel.columns 0).marLeft + COL_WIDTH / 2] ∧
    umlModel.arrows.map (fun a => hasSub a.description (chars "9000")) = [true] ∧
    10 ≤ (colAt umlModel.columns 0).height ∧
    10 ≤ (colAt umlModel.columns 1).height := by
  decide

/-- Is an index a valid subscript of the columns array. -/
def colIndexInBounds (i : Int) : Bool := decide (0 ≤ i) && decide (i < MAX_COLUMNS)

/-- stop(pid=p) with no preceding start. -/
def recStopOnly (p : Int) : DumpRec where
  opType := 48
  pid := p
  s1 := []
  s2 := []

/-- A secondary start whose parent pid 1 has no column. -/
def recStartOrphan (p : Int) : DumpRec where
  opType := 47
  pid := p
  s1 := chars "sh -c ..."
  s2 := chars "1"

/-- connect(pid=10) with no preceding bind for port 9000. -/
def recConnectNoBind : DumpRec where
  opType := 43
  pid := 10
  s1 := chars "127.0.0.1:9000"
  s2 := []

/-- C10 counterexample: a stop event whose pid has no live column makes
the pass subscript the columns array with the -1 of the failed lookup,
which is NOT in bounds: the claimed all-accesses-in-bounds property fails
on the one-record dump [stop(pid=5)]. -/
theorem c10_inbounds_cex :
    (find_columns [recStopOnly 5]).accesses.all colIndexInBounds = false := by
  decide

/-- C10 amended: a stop with an unknown pid and a secondary start with an
unknown parent both subscript the columns array with index -1, which is
out of bounds (undefined behavior in the C code); only the
connect-with-no-prior-bind case stays in bounds, reading index 0 of the
fixed-size zero-initialized array via the zeroed port table. -/
theorem c10_amended :
    (∀ p : Int, (find_columns [recStopOnly p]).accesses = [-1]) ∧
    (∀ p : Int, (find_columns [recStartOrphan p]).accesses = [-1]) ∧
    colIndexInBounds (-1) = false ∧
    (find_columns [recStart10, recConnectNoBind]).accesses = [0, 0, 0] ∧
    (find_columns [recStart10, recConnectNoBind]).accesses.all colIndexInBounds
      = true := by
  exact ⟨fun p => rfl, fun p => rfl, by decide, by decide, by decide⟩

end UML
